import Mathlib

/-
  Verification development for the LinkedIn post scraper
  (scraper.js, server.js, and the page-evaluate scraper variant).

  The JavaScript functions are shallowly embedded as Lean definitions.
  Modelling conventions:
  * JS strings are Lean `String`s; a missing attribute (`getAttribute`
    returning null) is modelled as `""` when the code only tests
    truthiness, and as `Option` when the distinction matters.
  * Numeric attributes (`width="320"`) are modelled as `Option Nat`:
    `none` for absent or empty attributes, `some n` for an attribute
    whose string denotes the numeral `n` (the non-numeric/NaN case is
    outside the scope of the claims).
  * `JSON.parse` of a data-sources attribute is modelled by its outcome:
    either `malformed` (a parse error, or a value that is not an array of
    objects; the code swallows the exception) or the list of `src` field
    values of the parsed entries (`""` for an entry with a missing,
    null or empty `src`).
-/

namespace LiScraper

/-- Does the list `needle` occur as a contiguous sublist of `hay`? -/
def containsList (needle : List Char) : List Char → Bool
  | [] => needle.isEmpty
  | c :: rest => ((c :: rest).take needle.length == needle) || containsList needle rest

/-- JS `hay.includes(needle)` (substring test). -/
def containsStr (hay needle : String) : Bool :=
  containsList needle.data hay.data

/-- JS `hay.startsWith(pre)`. -/
def startsStr (hay pre : String) : Bool :=
  hay.data.take pre.data.length == pre.data

/-- JS `hay.endsWith(suf)`. -/
def endsStr (hay suf : String) : Bool :=
  hay.data.drop (hay.data.length - suf.data.length) == suf.data

/-- Strip leading and trailing whitespace characters from a character list. -/
def trimChars (l : List Char) : List Char :=
  ((l.dropWhile Char.isWhitespace).reverse.dropWhile Char.isWhitespace).reverse

/-- JS `s.trim()`: strip leading and trailing whitespace. -/
def trimStr (s : String) : String :=
  ⟨trimChars s.data⟩

/-- JS `Array.prototype.join(sep)`. -/
def joinSep (sep : String) : List String → String
  | [] => ""
  | [x] => x
  | x :: y :: xs => x ++ sep ++ joinSep sep (y :: xs)

/-- Insertion-order deduplication with an accumulator of already seen
strings; models iteration order of a JS `Set`. -/
def dedupSeen (seen : List String) : List String → List String
  | [] => []
  | x :: xs => if seen.contains x then dedupSeen seen xs else x :: dedupSeen (x :: seen) xs

/-- scraper.js `uniq(arr)`: `[...new Set(arr.filter(Boolean))]`.
`filter(Boolean)` on an array of strings drops exactly the empty ones. -/
def uniq (arr : List String) : List String :=
  dedupSeen [] (arr.filter (· != ""))

theorem mem_of_mem_dedupSeen {a : String} :
    ∀ {l seen : List String}, a ∈ dedupSeen seen l → a ∈ l := by
  intro l
  induction l with
  | nil => intro seen h; simp [dedupSeen] at h
  | cons x xs ih =>
    intro seen h
    by_cases hx : seen.contains x = true
    · rw [dedupSeen, if_pos hx] at h
      exact List.mem_cons_of_mem _ (ih h)
    · rw [dedupSeen, if_neg hx] at h
      rcases List.mem_cons.mp h with h | h
      · simp [h]
      · exact List.mem_cons_of_mem _ (ih h)

theorem contains_eq_false_of_mem_dedupSeen {a : String} :
    ∀ {l seen : List String}, a ∈ dedupSeen seen l → seen.contains a = false := by
  intro l
  induction l with
  | nil => intro seen h; simp [dedupSeen] at h
  | cons x xs ih =>
    intro seen h
    by_cases hx : seen.contains x = true
    · rw [dedupSeen, if_pos hx] at h
      exact ih h
    · rw [dedupSeen, if_neg hx] at h
      rcases List.mem_cons.mp h with h | h
      · subst h
        exact Bool.of_not_eq_true hx
      · have h2 := ih h
        rw [List.contains_cons] at h2
        exact (Bool.or_eq_false_iff.mp h2).2

theorem nodup_dedupSeen : ∀ (l seen : List String), (dedupSeen seen l).Nodup := by
  intro l
  induction l with
  | nil => intro seen; simp [dedupSeen]
  | cons x xs ih =>
    intro seen
    by_cases hx : seen.contains x = true
    · rw [dedupSeen, if_pos hx]; exact ih seen
    · rw [dedupSeen, if_neg hx]
      refine List.nodup_cons.mpr ⟨?_, ih (x :: seen)⟩
      intro hmem
      have h2 := contains_eq_false_of_mem_dedupSeen hmem
      rw [List.contains_cons] at h2
      simp at h2

theorem uniq_nodup (l : List String) : (uniq l).Nodup :=
  nodup_dedupSeen _ _

theorem uniq_all_nonempty (l : List String) : (uniq l).all (· != "") = true := by
  rw [List.all_eq_true]
  intro a ha
  have h1 : a ∈ l.filter (· != "") := mem_of_mem_dedupSeen ha
  exact (List.mem_filter.mp h1).2

/-! ## Text Extractor (scraper.js extractFromArticle, text part) -/

/-- Join the trimmed, non-empty text parts of one selector's matches with a
blank-line separator:
`textParts.map(s => s.trim()).filter(Boolean).join("\n\n")`. -/
def joinParts (parts : List String) : String :=
  joinSep "\n\n" ((parts.map trimStr).filter (· != ""))

/-- The mutable state of the selector loop: the `text` variable and whether a
`break` (acceptance) has happened. -/
structure LoopState where
  text : String
  accepted : Bool
deriving DecidableEq

/-- One iteration of the `for (const selector of textSelectors)` loop.
`none` models the selector throwing (caught, loop continues); `some parts`
models `allTextContents()` returning `parts`. Acceptance (`break`) happens
exactly when the joined text is non-empty and shorter than 2000. -/
def selectorStep (st : LoopState) (r : Option (List String)) : LoopState :=
  if st.accepted then st
  else
    match r with
    | none => st
    | some parts =>
      if parts.length > 0 then
        let t := joinParts parts
        if t != "" && decide (t.length < 2000) then ⟨t, true⟩ else ⟨t, false⟩
      else st

/-- Run the selector loop over the chain of selector results, starting from
`text = ""`. -/
def runSelectorChain (rs : List (Option (List String))) : LoopState :=
  rs.foldl selectorStep ⟨"", false⟩

/-- An element matched by the fallback query
`article p.attributed-text-segment-list__content`, as observed by the code:
whether `el.closest(comment selectors)` found a comment ancestor, and its
text content. -/
structure FallbackElem where
  isComment : Bool
  text : String
deriving DecidableEq

/-- The sophisticated-fallback join: filter out comment elements, trim, drop
empties, keep the first three paragraphs, join with blank lines. -/
def mainPostJoin (elems : List FallbackElem) : String :=
  joinSep "\n\n" (((((elems.filter (fun e => !e.isComment)).map
    (fun e => trimStr e.text)).filter (· != ""))).take 3)

/-- The ultimate-fallback join over `article p`: trim, drop empties, keep the
first two paragraphs, join with blank lines. -/
def anyJoin (parts : List String) : String :=
  joinSep "\n\n" (((parts.map trimStr).filter (· != "")).take 2)

/-- Sentence-terminal punctuation characters of the truncation regex. -/
def isTermChar (c : Char) : Bool := c == '.' || c == '!' || c == '?'

/-- Worker for the JS `text.split(/[.!?]+/)`: `inRun` records whether the
previously consumed character belonged to a terminator run (whose remaining
characters are skipped); `acc` is the current segment, reversed. -/
def splitTermGo (inRun : Bool) (acc : List Char) : List Char → List (List Char)
  | [] => if inRun then [[]] else [acc.reverse]
  | c :: cs =>
    if isTermChar c then
      if inRun then splitTermGo true [] cs
      else acc.reverse :: splitTermGo true [] cs
    else
      if inRun then splitTermGo false [c] cs
      else splitTermGo false (c :: acc) cs

/-- JS `text.split(/[.!?]+/)`: split on maximal runs of sentence-terminal
punctuation, keeping empty boundary segments. -/
def sentencesOf (t : String) : List String :=
  (splitTermGo false [] t.data).map fun l => ⟨l⟩

/-- Does the text already end in sentence-terminal punctuation? -/
def endsTerm (t : String) : Bool :=
  endsStr t "." || endsStr t "!" || endsStr t "?"

/-- `sentences.slice(0, Math.min(5, sentences.length)).join(". ").trim()`:
the truncated text before the period fix-up. -/
def truncateFive (text : String) : String :=
  trimStr (joinSep ". " ((sentencesOf text).take (min 5 (sentencesOf text).length)))

/-- The post-processing step (`if (text.length > 2000) ...`): split into
sentences, keep the first `min 5 n`, rejoin with a period and space, trim,
and append a period when the non-empty result lacks terminal punctuation. -/
def postProcess (text : String) : String :=
  if text.length > 2000 then
    if truncateFive text != "" && !(endsTerm (truncateFive text)) then truncateFive text ++ "."
    else truncateFive text
  else text

/-! ## Dimension resolution

Two distinct resolvers exist in the repository: the `article img` pass of
scraper.js and the `page.evaluate` pass of the page-evaluate scraper
variant. -/

/-- scraper.js: `Number(i.getAttribute("width") || i.naturalWidth || 0)`.
A present numeric attribute (even `"0"`, a truthy string) wins outright;
otherwise the natural size is used (`0` when it is `0`). Computed style is
never consulted in this pass. -/
def resolveAxisArticle (attr : Option Nat) (natural : Nat) : Nat :=
  match attr with
  | some n => n
  | none => natural

/-- Page-evaluate pass dimension resolution (lines 241-256 of that file):
`naturalWidth/Height` first, then the `width`/`height` element properties,
then, only when either resulting axis is still zero, positive
`getComputedStyle` values overwrite each axis. `styleW`/`styleH` are the
`parseInt` results, with `0` standing for NaN or a non-positive parse. -/
def resolveDimsEvaluate (natW propW styleW natH propH styleH : Nat) : Nat × Nat :=
  let width := if natW = 0 then propW else natW
  let height := if natH = 0 then propH else natH
  if width = 0 ∨ height = 0 then
    (if styleW > 0 then styleW else width, if styleH > 0 then styleH else height)
  else (width, height)

/-- Modelled from the spec (claim C4): per axis, the first non-zero value in
the order attribute, natural size, computed style, defaulting to 0. -/
def resolveDimClaimed (attr natural style : Nat) : Nat :=
  if attr ≠ 0 then attr else if natural ≠ 0 then natural else if style ≠ 0 then style else 0

/-! ## Image Classifier, article pass (scraper.js, `page.$$eval("article img")`) -/

/-- One ancestor seen while traversing `parentElement` upward. -/
structure AncestorInfo where
  className : String
  id : String
deriving DecidableEq

/-- Comment-related class/id test on one ancestor. -/
def commentClass (a : AncestorInfo) : Bool :=
  containsStr a.className "comment" || containsStr a.className "comments" ||
  containsStr a.className "commentary" || containsStr a.className "feed-shared-commentary" ||
  containsStr a.className "comments-container" || containsStr a.className "social-actions" ||
  containsStr a.className "comments-list" || containsStr a.id "comment"

/-- Main-post container class test on one ancestor. -/
def mainPostClass (a : AncestorInfo) : Bool :=
  containsStr a.className "feed-shared-update-v2" || containsStr a.className "feed-shared-update" ||
  containsStr a.className "main-feed-activity-card" || containsStr a.className "feed-shared-image"

/-- The bounded ancestor walk (`while (current && depth < 10)`): stop and
report a comment on the first comment-matching ancestor; accumulate the
main-post flag otherwise. Returns `(isInComment, isInMainPost)`. -/
def walkFlags : List AncestorInfo → Nat → Bool → Bool × Bool
  | [], _, main => (false, main)
  | a :: rest, depth, main =>
    if depth ≥ 10 then (false, main)
    else if commentClass a then (true, main)
    else walkFlags rest (depth + 1) (main || mainPostClass a)

/-- A raw `<img>` element as read by the article pass. String attributes use
`""` for an absent attribute; `ancestors` lists the parent chain from the
immediate parent upward. -/
structure RawImg where
  srcAttr : String
  dataSrcAttr : String
  srcsetAttr : String
  widthAttr : Option Nat
  heightAttr : Option Nat
  naturalWidth : Nat
  naturalHeight : Nat
  className : String
  alt : String
  parentClass : String
  parentTag : String
  ancestors : List AncestorInfo
deriving DecidableEq

/-- First URL of a `srcset` attribute:
`srcset.split(",")[0]?.trim().split(" ")[0]`. -/
def srcsetFirst (srcset : String) : String :=
  (((trimStr ((srcset.splitOn ",").headD "")).splitOn " ").headD "")

/-- Source resolution of the article pass:
`src = getAttribute("src") || getAttribute("data-src") || ""`, then, when a
`srcset` is present and `src` is still empty, the first non-empty srcset URL. -/
def resolveSrc (i : RawImg) : String :=
  let src := if i.srcAttr != "" then i.srcAttr else i.dataSrcAttr
  if i.srcsetAttr != "" && src == "" then
    let firstSrc := srcsetFirst i.srcsetAttr
    if firstSrc != "" then firstSrc else src
  else src

/-- The candidate record built by the article pass `.map` step. -/
structure ImgCandV1 where
  src : String
  w : Nat
  h : Nat
  classes : String
  alt : String
  parent : String
  parentTag : String
  isInComment : Bool
  isInMainPost : Bool
deriving DecidableEq

/-- Build the candidate record from a raw element (the `.map((i) => ...)`). -/
def buildCand (i : RawImg) : ImgCandV1 :=
  let flags := walkFlags i.ancestors 0 false
  { src := resolveSrc i
    w := resolveAxisArticle i.widthAttr i.naturalWidth
    h := resolveAxisArticle i.heightAttr i.naturalHeight
    classes := i.className
    alt := i.alt
    parent := i.parentClass
    parentTag := i.parentTag
    isInComment := flags.1
    isInMainPost := flags.2 }

/-- `isLinkedInCDN` of the article-pass filter. -/
def isLinkedInCDN (src : String) : Bool :=
  startsStr src "https://media.licdn.com/" || startsStr src "https://static.licdn.com/" ||
  containsStr src "licdn.com"

/-- Profile/avatar token test used on both the element classes and the parent
classes. -/
def profileOrAvatar (s : String) : Bool :=
  containsStr s "profile" || containsStr s "avatar"

/-- `isInAuthorContainer` of the article-pass filter. -/
def inAuthorContainer (parent : String) : Bool :=
  containsStr parent "actor" || containsStr parent "author" ||
  containsStr parent "feed-shared-actor"

/-- The `isPostContent` OR-chain of the article-pass filter. -/
def isPostContent (o : ImgCandV1) : Bool :=
  o.isInMainPost || containsStr o.classes "w-full" || containsStr o.classes "object-cover" ||
  containsStr o.classes "feed-shared-image" || containsStr o.parent "feed-images" ||
  containsStr o.parent "feed-shared-image" || containsStr o.parent "media" ||
  containsStr o.parent "image" || (o.parentTag == "FIGURE") ||
  containsStr o.alt "graphical" || containsStr o.alt "application" ||
  containsStr o.alt "PowerPoint" || containsStr o.alt "image" ||
  containsStr o.alt "screenshot" || decide (o.w ≥ 300) || decide (o.h ≥ 300)

/-- The article-pass `.filter((o) => ...)` predicate, with its early returns
in source order. -/
def includeImageV1 (o : ImgCandV1) : Bool :=
  if o.isInComment then false
  else if o.src == "" then false
  else if !isLinkedInCDN o.src then false
  else if profileOrAvatar o.classes then false
  else if profileOrAvatar o.parent then false
  else if inAuthorContainer o.parent && decide (o.w < 100) && decide (o.h < 100) then false
  else if decide (o.w < 150) && decide (o.h < 150) then false
  else isPostContent o

/-! ## Image Classifier, page-evaluate pass (lines 288-304 of that file) -/

/-- The page-evaluate pass filter over the resolved best source and resolved
dimensions. -/
def includeImageV2 (src : String) (width height : Nat) : Bool :=
  let hasFeedshare := containsStr src "feedshare"
  let isFromMedia := containsStr src "media.licdn.com"
  let isSmallComment := containsStr src "comment-image" && decide (height < 300)
  (src != "") && containsStr src "licdn.com" && (isFromMedia || hasFeedshare) &&
  !containsStr src "profile-displayphoto" && !containsStr src "displaybackgroundimage" &&
  !containsStr src "/sc/h/" && !containsStr src "/aero-v1/sc/h/" &&
  !(isSmallComment && !hasFeedshare) && decide (width > 200)

/-! ## Video Source Collector -/

/-- Outcome of `JSON.parse` on a `data-sources` attribute. `parsed entries`
holds the `src` field of each array entry (`""` for a falsy or missing
`src`); `malformed` covers a parse error or a non-iterable parse result,
both swallowed by the surrounding `try`/`catch`. -/
inductive DataSources where
  | malformed : DataSources
  | parsed : List String → DataSources
deriving DecidableEq

/-- An `article video` element: its optional `data-sources` attribute and the
`src` attributes of its nested `source[src]` tags, in document order. -/
structure VideoElem where
  dataSources : Option DataSources
  sourceTags : List String
deriving DecidableEq

/-- An element matched by `article [data-sources]`. -/
structure WrapperElem where
  dataSources : Option DataSources
deriving DecidableEq

/-- Contribution of one video element to pass 1: the truthy `src` fields of
its parsed `data-sources` entries, then its `source[src]` URLs. -/
def videoElemOut (v : VideoElem) : List String :=
  (match v.dataSources with
   | some (DataSources.parsed entries) => entries.filter (· != "")
   | _ => []) ++ v.sourceTags

/-- Pass 1 (`page.$$eval("article video", ...)`). -/
def videoFromDataSources (vids : List VideoElem) : List String :=
  vids.flatMap videoElemOut

/-- Contribution of one wrapper element to pass 2 (`if (!ds) continue`, then
parse identically). -/
def wrapperOut (n : WrapperElem) : List String :=
  match n.dataSources with
  | some (DataSources.parsed entries) => entries.filter (· != "")
  | _ => []

/-- Pass 2 (`page.$$eval("article [data-sources]", ...)`). -/
def videoFromWrapper (nodes : List WrapperElem) : List String :=
  nodes.flatMap wrapperOut

/-- Final assembly of the videos sequence:
`uniq([...videoFromDataSources, ...videoFromWrapper])`. -/
def collectVideos (vids : List VideoElem) (nodes : List WrapperElem) : List String :=
  uniq (videoFromDataSources vids ++ videoFromWrapper nodes)

/-! ## PageSnapshot and the Extraction Orchestrator (scraper.js variant) -/

/-- A point-in-time view of the rendered page, holding exactly the
observations the scraper.js extraction code makes: the four selector-chain
query results (`none` models a thrown query), the two fallback query
results, and the raw image/video/wrapper element lists. -/
structure PageSnapshot where
  sel1 : Option (List String)
  sel2 : Option (List String)
  sel3 : Option (List String)
  sel4 : Option (List String)
  fallbackMain : Option (List FallbackElem)
  fallbackAny : Option (List String)
  articleImgs : List RawImg
  videoElems : List VideoElem
  wrapperElems : List WrapperElem

/-- The selector-loop state after the four `textSelectors` have been tried. -/
def chainState (snap : PageSnapshot) : LoopState :=
  runSelectorChain [snap.sel1, snap.sel2, snap.sel3, snap.sel4]

/-- The `if (!text)` fallback block: the sophisticated comment-exclusion
join; when that is empty, the ultimate fallback; a thrown `$$eval` (modelled
as `none`) leaves the text empty. -/
def fallbackText (snap : PageSnapshot) : String :=
  match snap.fallbackMain with
  | none => ""
  | some elems =>
    if mainPostJoin elems != "" then mainPostJoin elems
    else
      match snap.fallbackAny with
      | none => ""
      | some parts => anyJoin parts

/-- The full text pipeline: selector chain, fallback when the chain left the
text empty, then truncation post-processing. -/
def extractText (snap : PageSnapshot) : String :=
  let t := (chainState snap).text
  let t := if t = "" then fallbackText snap else t
  postProcess t

/-- The engine's sole output shape. -/
structure ExtractionResult where
  text : Option String
  images : List String
  videos : List String
deriving DecidableEq

/-- `extractFromArticle` of scraper.js: assemble
`{ text: text || null, images: uniq(images), videos: uniq([...]) }`. -/
def extract (snap : PageSnapshot) : ExtractionResult :=
  { text := if extractText snap = "" then none else some (extractText snap)
    images := uniq (((snap.articleImgs.map buildCand).filter includeImageV1).map (·.src))
    videos := collectVideos snap.videoElems snap.wrapperElems }

/-! ## Batch endpoint (server.js, `app.post("/scrape/batch")`) -/

/-- Outcome of `scrapeLinkedInPost(url, li_at)` as supplied by the external
page provider: a result, or a thrown error with its message. -/
inductive ScrapeOutcome where
  | ok : ExtractionResult → ScrapeOutcome
  | err : String → ScrapeOutcome
deriving DecidableEq

/-- One entry of the batch `results` array. -/
structure BatchEntry where
  url : String
  success : Bool
  data : Option ExtractionResult
  error : Option String
deriving DecidableEq

/-- The body of the `for (const url of urls)` loop: exactly one entry per
URL — invalid-URL entry, success entry, or caught-error entry. -/
def scrapeOne (provider : String → ScrapeOutcome) (url : String) : BatchEntry :=
  if !containsStr url "linkedin.com/posts/" then
    { url := url, success := false, data := none, error := some "Invalid LinkedIn post URL" }
  else
    match provider url with
    | ScrapeOutcome.ok r => { url := url, success := true, data := some r, error := none }
    | ScrapeOutcome.err m => { url := url, success := false, data := none, error := some m }

/-- The loop over all URLs of one batch request. -/
def processBatch (provider : String → ScrapeOutcome) (urls : List String) : List BatchEntry :=
  urls.map (scrapeOne provider)

/-- The batch endpoint after JSON-body validation: reject more than 10 URLs
with a 400 error, otherwise process each URL in order. -/
def batchEndpoint (provider : String → ScrapeOutcome) (urls : List String) :
    Except String (List BatchEntry) :=
  if urls.length > 10 then Except.error "Too many URLs. Maximum 10 URLs per batch request."
  else Except.ok (processBatch provider urls)

/-! ## Symbolic evaluation helpers for long texts

Texts at the 2000-character threshold are built from `List.replicate`; these
lemmas evaluate the text pipeline on them without kernel-reducing
thousand-element lists. -/

theorem splitTermGo_replicate (c : Char) (h : isTermChar c = false) :
    ∀ (n : Nat) (acc rest : List Char),
    splitTermGo false acc (List.replicate n c ++ rest) =
    splitTermGo false (List.replicate n c ++ acc) rest := by
  intro n
  induction n with
  | zero => intro acc rest; simp
  | succ k ih =>
    intro acc rest
    rw [List.replicate_succ, List.cons_append]
    have step : splitTermGo false acc (c :: (List.replicate k c ++ rest)) =
        splitTermGo false (c :: acc) (List.replicate k c ++ rest) := by
      simp [splitTermGo, h]
    rw [step, ih (c :: acc) rest]
    congr 1
    rw [List.append_cons, ← List.replicate_succ' k c, List.replicate_succ, List.cons_append]

theorem dropWhile_replicate_append (p : Char → Bool) (c : Char) (h : p c = false)
    (k : Nat) (rest : List Char) :
    (List.replicate (k + 1) c ++ rest).dropWhile p = List.replicate (k + 1) c ++ rest := by
  rw [List.replicate_succ, List.cons_append, List.dropWhile_cons, h]
  simp

theorem trimChars_replicate_append (n : Nat) (c : Char) (hc : Char.isWhitespace c = false)
    (tail : List Char) :
    trimChars (List.replicate (n + 1) c ++ tail) =
    List.replicate (n + 1) c ++ (tail.reverse.dropWhile Char.isWhitespace).reverse := by
  unfold trimChars
  rw [dropWhile_replicate_append _ c hc n tail]
  rw [List.reverse_append, List.reverse_replicate, List.dropWhile_append]
  by_cases hemp : (tail.reverse.dropWhile Char.isWhitespace).isEmpty = true
  · rw [if_pos hemp]
    have h1 : List.dropWhile Char.isWhitespace (List.replicate (n + 1) c) =
        List.replicate (n + 1) c := by
      have h2 := dropWhile_replicate_append Char.isWhitespace c hc n []
      simpa using h2
    rw [h1, List.reverse_replicate]
    have h3 : (tail.reverse.dropWhile Char.isWhitespace) = [] := by
      simpa [List.isEmpty_iff] using hemp
    rw [h3]
    simp
  · rw [if_neg hemp, List.reverse_append, List.reverse_replicate]

theorem trimChars_replicate (k : Nat) (c : Char) (hc : Char.isWhitespace c = false) :
    trimChars (List.replicate (k + 1) c) = List.replicate (k + 1) c := by
  have h := trimChars_replicate_append k c hc []
  simpa using h

theorem data_mk (l : List Char) : (String.mk l).data = l := rfl

theorem endsStr_replicate_append (n : Nat) (c : Char) (tail : List Char) (suf : String)
    (h : suf.data.length ≤ tail.length) :
    endsStr ⟨List.replicate n c ++ tail⟩ suf =
    (tail.drop (tail.length - suf.data.length) == suf.data) := by
  show (List.drop ((List.replicate n c ++ tail).length - suf.data.length)
      (List.replicate n c ++ tail) == suf.data) = _
  have harith : (List.replicate n c ++ tail).length - suf.data.length =
      (List.replicate n c).length + (tail.length - suf.data.length) := by
    rw [List.length_append]
    omega
  rw [harith, List.drop_append]

/-! ### A 2500-character text made of six sentences -/

/-- A concrete accepted text of length 2500 with exactly six sentences; the
fifth sentence carries trailing whitespace. -/
def t3 : String := ⟨List.replicate 2484 'a'⟩ ++ ". b. c. d. e . f"

theorem t3_data : t3.data = List.replicate 2484 'a' ++ (". b. c. d. e . f").data := rfl

theorem t3_length : t3.length = 2500 := by
  have h : t3.length = t3.data.length := rfl
  rw [h, t3_data, List.length_append, List.length_replicate]
  rfl

theorem splitTermGo_term (acc : List Char) (c : Char) (cs : List Char)
    (h : isTermChar c = true) :
    splitTermGo false acc (c :: cs) = acc.reverse :: splitTermGo true [] cs := by
  simp [splitTermGo, h]

theorem t3_split : splitTermGo false [] t3.data =
    [List.replicate 2484 'a', [' ', 'b'], [' ', 'c'], [' ', 'd'], [' ', 'e', ' '], [' ', 'f']] := by
  rw [t3_data, splitTermGo_replicate 'a' (by decide) 2484 [] _, List.append_nil]
  have hdata : (". b. c. d. e . f").data =
      ['.', ' ', 'b', '.', ' ', 'c', '.', ' ', 'd', '.', ' ', 'e', ' ', '.', ' ', 'f'] := by
    decide
  rw [hdata, splitTermGo_term _ '.' _ (by decide), List.reverse_replicate]
  congr 1

theorem t3_sentences : sentencesOf t3 =
    [⟨List.replicate 2484 'a'⟩, " b", " c", " d", " e ", " f"] := by
  unfold sentencesOf
  rw [t3_split]
  rfl

theorem t3_sentences_length : (sentencesOf t3).length = 6 := by
  rw [t3_sentences]
  rfl

theorem t3_five : joinSep ". " ((sentencesOf t3).take 5) =
    ⟨List.replicate 2484 'a' ++ (".  b.  c.  d.  e ").data⟩ := by
  rw [t3_sentences]
  apply String.ext
  show (((((⟨List.replicate 2484 'a'⟩ : String) ++ ". ") ++ (" b" ++ ". " ++
      (" c" ++ ". " ++ (" d" ++ ". " ++ " e "))))).data) =
      List.replicate 2484 'a' ++ (".  b.  c.  d.  e ").data
  show (List.replicate 2484 'a' ++ ". ".data) ++ (" b" ++ ". " ++
      (" c" ++ ". " ++ (" d" ++ ". " ++ " e "))).data =
      List.replicate 2484 'a' ++ (".  b.  c.  d.  e ").data
  rw [List.append_assoc]
  congr 1

theorem trimStr_mk (l : List Char) : trimStr ⟨l⟩ = ⟨trimChars l⟩ := rfl

theorem mk_append_str (l : List Char) (s : String) : (⟨l⟩ : String) ++ s = ⟨l ++ s.data⟩ := rfl

theorem t3_five_trim : trimStr ⟨List.replicate 2484 'a' ++ (".  b.  c.  d.  e ").data⟩ =
    ⟨List.replicate 2484 'a' ++ (".  b.  c.  d.  e").data⟩ := by
  rw [trimStr_mk]
  have h : trimChars (List.replicate 2484 'a' ++ (".  b.  c.  d.  e ").data) =
      List.replicate 2484 'a' ++ (".  b.  c.  d.  e").data := by
    rw [show (2484 : Nat) = 2483 + 1 from rfl]
    rw [trimChars_replicate_append 2483 'a' (by decide)]
    congr 1
  rw [h]

theorem t3_min : min 5 (sentencesOf t3).length = 5 := by
  rw [t3_sentences_length]
  norm_num

theorem truncateFive_t3 : truncateFive t3 =
    ⟨List.replicate 2484 'a' ++ (".  b.  c.  d.  e").data⟩ := by
  unfold truncateFive
  rw [t3_min, t3_five]
  exact t3_five_trim

theorem bne_empty_t3A :
    ((⟨List.replicate 2484 'a' ++ (".  b.  c.  d.  e").data⟩ : String) != "") = true := by
  rw [bne_iff_ne]
  intro h
  have h2 := congrArg String.data h
  rw [data_mk] at h2
  have h3 := congrArg List.length h2
  rw [List.length_append, List.length_replicate] at h3
  simp at h3

theorem endsTerm_t3A : endsTerm ⟨List.replicate 2484 'a' ++ (".  b.  c.  d.  e").data⟩ = false := by
  unfold endsTerm
  rw [endsStr_replicate_append 2484 'a' _ "." (by decide),
      endsStr_replicate_append 2484 'a' _ "!" (by decide),
      endsStr_replicate_append 2484 'a' _ "?" (by decide)]
  decide

theorem endsTerm_t3B : endsTerm ⟨List.replicate 2484 'a' ++ (".  b.  c.  d.  e ").data⟩ = false := by
  unfold endsTerm
  rw [endsStr_replicate_append 2484 'a' _ "." (by decide),
      endsStr_replicate_append 2484 'a' _ "!" (by decide),
      endsStr_replicate_append 2484 'a' _ "?" (by decide)]
  decide

theorem postProcess_t3 : postProcess t3 =
    ⟨List.replicate 2484 'a' ++ (".  b.  c.  d.  e.").data⟩ := by
  unfold postProcess
  rw [if_pos (show t3.length > 2000 by rw [t3_length]; norm_num)]
  rw [truncateFive_t3, bne_empty_t3A, endsTerm_t3A]
  simp only [Bool.not_false, Bool.and_self, if_true]
  rw [mk_append_str]
  have h2 : (List.replicate 2484 'a' ++ (".  b.  c.  d.  e").data) ++ ".".data =
      List.replicate 2484 'a' ++ (".  b.  c.  d.  e.").data := by
    rw [List.append_assoc]
    congr 1
  rw [h2]

/-- Modelled from the spec (claim C3 wording): the first five sentences
rejoined with a period and space, with no trim step. -/
def claimedFive (text : String) : String :=
  joinSep ". " ((sentencesOf text).take 5)

/-- Modelled from the spec (claim C3 wording): the claimed post-processing,
which rejoins the first five sentences and appends a terminal period when
the rejoined text does not already end in terminal punctuation, with no trim
of surrounding whitespace and no non-emptiness guard. -/
def postProcessClaimed (text : String) : String :=
  if text.length > 2000 then
    if !(endsTerm (claimedFive text)) then claimedFive text ++ "." else claimedFive text
  else text

theorem postProcessClaimed_t3 : postProcessClaimed t3 =
    ⟨List.replicate 2484 'a' ++ (".  b.  c.  d.  e .").data⟩ := by
  unfold postProcessClaimed claimedFive
  rw [if_pos (show t3.length > 2000 by rw [t3_length]; norm_num)]
  rw [t3_five, endsTerm_t3B]
  simp only [Bool.not_false, if_true]
  rw [mk_append_str]
  have h2 : (List.replicate 2484 'a' ++ (".  b.  c.  d.  e ").data) ++ ".".data =
      List.replicate 2484 'a' ++ (".  b.  c.  d.  e .").data := by
    rw [List.append_assoc]
    congr 1
  rw [h2]

/-! ### A 2000-character fallback text -/

/-- A concrete fallback text of length exactly 2000. -/
def a2000 : String := ⟨List.replicate 2000 'a'⟩

theorem a2000_ne : a2000 ≠ "" := by
  intro h
  have h2 := congrArg String.data h
  have h3 := congrArg List.length h2
  rw [show a2000.data = List.replicate 2000 'a' from rfl, List.length_replicate] at h3
  simp at h3

theorem trimStr_a2000 : trimStr a2000 = a2000 := by
  show trimStr ⟨List.replicate 2000 'a'⟩ = a2000
  rw [trimStr_mk]
  rw [show (2000 : Nat) = 1999 + 1 from rfl, trimChars_replicate 1999 'a' (by decide)]
  rfl

theorem a2000_length : a2000.length = 2000 := by
  rw [show a2000.length = (List.replicate 2000 'a').length from rfl, List.length_replicate]

theorem mainPostJoin_a2000 : mainPostJoin [{ isComment := false, text := a2000 }] = a2000 := by
  have hb : (a2000 != "") = true := bne_iff_ne.mpr a2000_ne
  unfold mainPostJoin
  simp only [List.filter_cons, List.filter_nil, List.map_cons, List.map_nil, Bool.not_false,
    if_true, trimStr_a2000, hb]
  rfl

theorem mainPostJoin_a2000_length :
    (mainPostJoin [{ isComment := false, text := a2000 }]).length = 2000 := by
  rw [mainPostJoin_a2000]
  exact a2000_length

/-- The snapshot for the threshold-boundary witness: every selector throws,
and the comment-exclusion fallback assembles a text of length exactly 2000. -/
def snap10 : PageSnapshot :=
  { sel1 := none, sel2 := none, sel3 := none, sel4 := none
    fallbackMain := some [{ isComment := false, text := a2000 }], fallbackAny := none
    articleImgs := [], videoElems := [], wrapperElems := [] }

/-! ## Text pipeline lemmas -/

theorem foldl_selectorStep_accepted (l : List (Option (List String))) :
    ∀ st : LoopState, st.accepted = true → l.foldl selectorStep st = st := by
  induction l with
  | nil => intro st _; rfl
  | cons r rs ih =>
    intro st h
    have hstep : selectorStep st r = st := by
      unfold selectorStep
      rw [if_pos h]
    rw [List.foldl_cons, hstep]
    exact ih st h

theorem postProcess_short (t : String) (h : ¬ t.length > 2000) : postProcess t = t := by
  unfold postProcess
  rw [if_neg h]

/-- C2: if the first selector of the chain matches a non-empty list of parts
whose trimmed, joined text is non-empty and shorter than 2000 characters,
the extraction returns exactly that joined text, unchanged by the later
selectors, the fallback, and the truncation step. -/
theorem c2_first_selector_priority (snap : PageSnapshot) (parts : List String)
    (h1 : snap.sel1 = some parts)
    (h2 : joinParts parts ≠ "")
    (h3 : (joinParts parts).length < 2000) :
    (extract snap).text = some (joinParts parts) := by
  have hne : parts ≠ [] := by
    intro hp
    rw [hp] at h2
    exact h2 rfl
  have hlen : parts.length > 0 := List.length_pos.mpr hne
  have hbne : (joinParts parts != "") = true := bne_iff_ne.mpr h2
  have hdec : decide ((joinParts parts).length < 2000) = true := decide_eq_true h3
  have hstep : selectorStep ⟨"", false⟩ (some parts) = ⟨joinParts parts, true⟩ := by
    simp [selectorStep, hlen, hbne, hdec]
  have hchain : chainState snap = ⟨joinParts parts, true⟩ := by
    unfold chainState runSelectorChain
    rw [h1, List.foldl_cons, hstep]
    exact foldl_selectorStep_accepted _ _ rfl
  have htext : extractText snap = joinParts parts := by
    unfold extractText
    rw [hchain]
    show postProcess (if joinParts parts = "" then fallbackText snap else joinParts parts) =
        joinParts parts
    rw [if_neg h2]
    exact postProcess_short _ (by omega)
  show (if extractText snap = "" then none else some (extractText snap)) = some (joinParts parts)
  rw [htext, if_neg h2]

/-- Witness for C2 at a concrete snapshot whose first selector matches one
short paragraph. -/
def snap2 : PageSnapshot :=
  { sel1 := some ["Hello world"], sel2 := none, sel3 := none, sel4 := none
    fallbackMain := none, fallbackAny := none
    articleImgs := [], videoElems := [], wrapperElems := [] }

theorem c2_first_selector_priority_witness :
    snap2.sel1 = some ["Hello world"] ∧ joinParts ["Hello world"] ≠ "" ∧
    (joinParts ["Hello world"]).length < 2000 ∧
    (extract snap2).text = some (joinParts ["Hello world"]) :=
  ⟨rfl, by decide, by decide,
   c2_first_selector_priority snap2 ["Hello world"] rfl (by decide) (by decide)⟩

/-- C3 counterexample: a 2500-character text of six sentences on which the
code's post-processing (which trims the rejoined text) differs from the
claimed formula (which does not trim). -/
theorem c3_counterexample :
    t3.length = 2500 ∧ (sentencesOf t3).length = 6 ∧
    postProcess t3 ≠ postProcessClaimed t3 := by
  refine ⟨t3_length, t3_sentences_length, ?_⟩
  rw [postProcess_t3, postProcessClaimed_t3]
  intro h
  have h2 := congrArg String.data h
  rw [data_mk, data_mk] at h2
  exact absurd (List.append_cancel_left h2) (by decide)

/-- C3 (amended): truncation applies exactly when the text exceeds 2000
characters; above the threshold the result is the first `min 5 n` sentences
rejoined with a period and space, trimmed, with a terminal period appended
when the trimmed result is non-empty and lacks terminal punctuation; for a
six-sentence text this keeps exactly the first five sentences. -/
theorem c3_truncation_amended :
    (∀ t : String, ¬ t.length > 2000 → postProcess t = t) ∧
    (∀ t : String, t.length > 2000 → postProcess t =
      (if truncateFive t != "" && !(endsTerm (truncateFive t)) then truncateFive t ++ "."
       else truncateFive t)) ∧
    (∀ t : String, (sentencesOf t).length = 6 →
      truncateFive t = trimStr (joinSep ". " ((sentencesOf t).take 5))) := by
  refine ⟨fun t h => postProcess_short t h, fun t h => ?_, fun t h6 => ?_⟩
  · unfold postProcess
    rw [if_pos h]
  · unfold truncateFive
    rw [h6]
    norm_num

theorem c3_truncation_amended_witness :
    postProcess "tiny" = "tiny" ∧
    postProcess t3 =
      (if truncateFive t3 != "" && !(endsTerm (truncateFive t3)) then truncateFive t3 ++ "."
       else truncateFive t3) ∧
    truncateFive t3 = trimStr (joinSep ". " ((sentencesOf t3).take 5)) :=
  ⟨c3_truncation_amended.1 "tiny" (by decide),
   c3_truncation_amended.2.1 t3 (by rw [t3_length]; norm_num),
   c3_truncation_amended.2.2 t3 t3_sentences_length⟩

/-- C10: a selector step never accepts a joined text of length exactly 2000,
and a comment-exclusion fallback text of length exactly 2000 (reached when
the selector chain left the text empty) is returned untruncated. -/
theorem c10_threshold_boundary :
    (∀ (st : LoopState) (parts : List String), st.accepted = false →
      (joinParts parts).length = 2000 → (selectorStep st (some parts)).accepted = false) ∧
    (∀ (snap : PageSnapshot) (elems : List FallbackElem),
      (chainState snap).text = "" → snap.fallbackMain = some elems →
      (mainPostJoin elems).length = 2000 →
      (extract snap).text = some (mainPostJoin elems)) := by
  constructor
  · intro st parts hacc hlen2000
    have hd : decide ((joinParts parts).length < 2000) = false := by
      rw [hlen2000]
      rfl
    by_cases hp : parts.length > 0
    · simp [selectorStep, hacc, hd, hp]
    · simp [selectorStep, hacc, hp]
  · intro snap elems hchain hfm hlen2000
    have hne : mainPostJoin elems ≠ "" := by
      intro h0
      rw [h0] at hlen2000
      exact absurd hlen2000 (by decide)
    have hbne : (mainPostJoin elems != "") = true := bne_iff_ne.mpr hne
    have hfb : fallbackText snap = mainPostJoin elems := by
      unfold fallbackText
      rw [hfm]
      show (if mainPostJoin elems != "" then mainPostJoin elems
        else match snap.fallbackAny with
          | none => ""
          | some parts => anyJoin parts) = mainPostJoin elems
      rw [hbne]
      simp
    have htext : extractText snap = mainPostJoin elems := by
      unfold extractText
      rw [hchain]
      show postProcess (if ("" : String) = "" then fallbackText snap else "") = mainPostJoin elems
      rw [if_pos rfl, hfb]
      exact postProcess_short _ (by rw [hlen2000]; omega)
    show (if extractText snap = "" then none else some (extractText snap)) =
        some (mainPostJoin elems)
    rw [htext, if_neg hne]

theorem c10_threshold_boundary_witness :
    (chainState snap10).text = "" ∧
    snap10.fallbackMain = some [{ isComment := false, text := a2000 }] ∧
    (mainPostJoin [{ isComment := false, text := a2000 }]).length = 2000 ∧
    (extract snap10).text = some (mainPostJoin [{ isComment := false, text := a2000 }]) :=
  ⟨rfl, rfl, mainPostJoin_a2000_length,
   c10_threshold_boundary.2 snap10 [{ isComment := false, text := a2000 }] rfl rfl
     mainPostJoin_a2000_length⟩

/-! ## C1: dedup/non-empty invariant of the extraction result -/

/-- C1: for every PageSnapshot, the images and videos sequences of the
extraction result contain no empty strings and no duplicate strings. -/
theorem c1_dedup_invariant (snap : PageSnapshot) :
    (extract snap).images.all (· != "") = true ∧ (extract snap).images.Nodup ∧
    (extract snap).videos.all (· != "") = true ∧ (extract snap).videos.Nodup := by
  refine ⟨uniq_all_nonempty _, uniq_nodup _, ?_, ?_⟩
  · show (collectVideos snap.videoElems snap.wrapperElems).all (· != "") = true
    unfold collectVideos
    exact uniq_all_nonempty _
  · show (collectVideos snap.videoElems snap.wrapperElems).Nodup
    unfold collectVideos
    exact uniq_nodup _

/-! ## C4: dimension resolution order -/

/-- C4 counterexample: the claimed attribute-first, style-backed order
disagrees with both resolvers. The article pass returns an explicit zero
attribute (claimed: fall through to the natural size 400) and never consults
style (claimed: 500); the page-evaluate pass prefers the natural size 400
over the width property 100 (claimed: 100). -/
theorem c4_counterexample :
    resolveDimClaimed 0 0 500 = 500 ∧ resolveAxisArticle none 0 = 0 ∧
    resolveDimClaimed 100 400 0 = 100 ∧
    resolveDimsEvaluate 400 100 0 400 100 0 = (400, 400) ∧
    (0 : Nat) ≠ 500 ∧ (400 : Nat) ≠ 100 := by
  decide

/-- C4 (amended): the article pass resolves each axis as the numeric
attribute when present (even zero) and the natural size otherwise, never
consulting computed style; the page-evaluate pass resolves natural size
first, then the element property, and when either axis is still zero a
positive computed-style value overrides each axis (even a non-zero one). -/
theorem c4_dimension_resolution_amended :
    (∀ (n natural : Nat), resolveAxisArticle (some n) natural = n) ∧
    (∀ natural : Nat, resolveAxisArticle none natural = natural) ∧
    (∀ natW propW styleW natH propH styleH : Nat, natW ≠ 0 → natH ≠ 0 →
      resolveDimsEvaluate natW propW styleW natH propH styleH = (natW, natH)) ∧
    (∀ natW propW styleW natH propH styleH : Nat, natW = 0 → propW ≠ 0 → natH ≠ 0 →
      resolveDimsEvaluate natW propW styleW natH propH styleH = (propW, natH)) ∧
    (∀ natW propW styleW natH propH styleH : Nat, natH = 0 → propH = 0 →
      styleW > 0 → styleH > 0 →
      resolveDimsEvaluate natW propW styleW natH propH styleH = (styleW, styleH)) ∧
    (∀ styleW styleH : Nat, resolveDimsEvaluate 0 0 styleW 0 0 styleH =
      ((if styleW > 0 then styleW else 0), (if styleH > 0 then styleH else 0))) := by
  refine ⟨fun n natural => rfl, fun natural => rfl, ?_, ?_, ?_, ?_⟩
  · intro natW propW styleW natH propH styleH hw hh
    simp [resolveDimsEvaluate, hw, hh]
  · intro natW propW styleW natH propH styleH hw hp hh
    simp [resolveDimsEvaluate, hw, hp, hh]
  · intro natW propW styleW natH propH styleH hh hp hsw hsh
    simp [resolveDimsEvaluate, hh, hp, hsw, hsh]
  · intro styleW styleH
    simp [resolveDimsEvaluate]

theorem c4_dimension_resolution_amended_witness :
    resolveDimsEvaluate 400 7 9 300 8 10 = (400, 300) ∧
    resolveDimsEvaluate 0 150 9 200 8 0 = (150, 200) ∧
    resolveDimsEvaluate 500 0 300 0 0 250 = (300, 250) :=
  ⟨c4_dimension_resolution_amended.2.2.1 400 7 9 300 8 10 (by decide) (by decide),
   c4_dimension_resolution_amended.2.2.2.1 0 150 9 200 8 0 rfl (by decide) (by decide),
   c4_dimension_resolution_amended.2.2.2.2.1 500 0 300 0 0 250 rfl rfl (by decide) (by decide)⟩

/-! ## C5: the small-comment-image exclusion of the page-evaluate pass -/

/-- C5: any candidate whose resolved source contains the comment-image path
marker, whose resolved height is below 300, and whose source lacks the
feedshare marker is excluded by the page-evaluate filter, whatever its
width. -/
theorem c5_small_comment_excluded (src : String) (w h : Nat)
    (h1 : containsStr src "comment-image" = true)
    (h2 : h < 300)
    (h3 : containsStr src "feedshare" = false) :
    includeImageV2 src w h = false := by
  simp [includeImageV2, h1, h3, decide_eq_true h2]

theorem c5_small_comment_excluded_witness :
    containsStr "https://media.licdn.com/comment-image/p.jpg" "comment-image" = true ∧
    (120 : Nat) < 300 ∧
    containsStr "https://media.licdn.com/comment-image/p.jpg" "feedshare" = false ∧
    includeImageV2 "https://media.licdn.com/comment-image/p.jpg" 500 120 = false :=
  ⟨by decide, by decide, by decide,
   c5_small_comment_excluded "https://media.licdn.com/comment-image/p.jpg" 500 120
     (by decide) (by decide) (by decide)⟩

/-! ## C6: the inclusion OR-chain -/

/-- A candidate flagged main-post but with zero resolved dimensions: every
claimed gate predicate passes, yet the article-pass filter rejects it. -/
def c6img : ImgCandV1 :=
  { src := "https://media.licdn.com/img.jpg", w := 0, h := 0, classes := "", alt := ""
    parent := "", parentTag := "DIV", isInComment := false, isInMainPost := true }

/-- C6 counterexample: the main-post flag alone does not suffice in the
article pass (the small-size gate rejects first), and in the page-evaluate
pass a clearly-large height does not overcome the unconditional width
requirement. -/
theorem c6_counterexample :
    c6img.isInComment = false ∧ isLinkedInCDN c6img.src = true ∧
    profileOrAvatar c6img.classes = false ∧ profileOrAvatar c6img.parent = false ∧
    inAuthorContainer c6img.parent = false ∧ c6img.isInMainPost = true ∧
    includeImageV1 c6img = false ∧
    includeImageV2 "https://media.licdn.com/img.jpg" 0 400 = false := by
  decide

/-- C6 (amended): in the article pass, once a candidate passes the comment,
source, host, profile/author and small-size (width or height at least 150)
gates, any single signal of the OR-chain suffices for inclusion — and each
listed signal implies the OR-chain; in the page-evaluate pass inclusion
always requires width above 200. -/
theorem c6_any_signal_amended :
    (∀ o : ImgCandV1,
      o.isInComment = false →
      (o.src == "") = false →
      isLinkedInCDN o.src = true →
      profileOrAvatar o.classes = false →
      profileOrAvatar o.parent = false →
      (inAuthorContainer o.parent && decide (o.w < 100) && decide (o.h < 100)) = false →
      150 ≤ o.w ∨ 150 ≤ o.h →
      isPostContent o = true →
      includeImageV1 o = true) ∧
    (∀ o : ImgCandV1, o.isInMainPost = true → isPostContent o = true) ∧
    (∀ o : ImgCandV1, 300 ≤ o.w → isPostContent o = true) ∧
    (∀ o : ImgCandV1, 300 ≤ o.h → isPostContent o = true) ∧
    (∀ o : ImgCandV1, containsStr o.alt "screenshot" = true → isPostContent o = true) ∧
    (∀ o : ImgCandV1, o.parentTag = "FIGURE" → isPostContent o = true) ∧
    (∀ (src : String) (w h : Nat), includeImageV2 src w h = true → 200 < w) := by
  refine ⟨?_, ?_, ?_, ?_, ?_, ?_, ?_⟩
  · intro o h1 h2 h3 h4 h5 h6 h7 h8
    have hsize : (decide (o.w < 150) && decide (o.h < 150)) = false := by
      rcases h7 with h7 | h7
      · have hn : ¬ o.w < 150 := by omega
        simp [hn]
      · have hn : ¬ o.h < 150 := by omega
        simp [hn]
    simp [includeImageV1, h1, h2, h3, h4, h5, h6, hsize, h8]
  · intro o h
    simp [isPostContent, h]
  · intro o h
    simp [isPostContent, decide_eq_true h]
  · intro o h
    simp [isPostContent, decide_eq_true h]
  · intro o h
    simp [isPostContent, h]
  · intro o h
    simp [isPostContent, h]
  · intro src w h hcl
    simp only [includeImageV2, Bool.and_eq_true] at hcl
    exact of_decide_eq_true hcl.2

/-- A candidate at the small-size boundary with only the main-post signal. -/
def c6okimg : ImgCandV1 :=
  { src := "https://media.licdn.com/img.jpg", w := 150, h := 0, classes := "", alt := ""
    parent := "", parentTag := "DIV", isInComment := false, isInMainPost := true }

theorem c6_any_signal_amended_witness :
    includeImageV1 c6okimg = true ∧ 200 < 250 :=
  ⟨c6_any_signal_amended.1 c6okimg rfl (by decide) (by decide) (by decide) (by decide)
     (by decide) (Or.inl (by decide)) (c6_any_signal_amended.2.1 c6okimg rfl),
   c6_any_signal_amended.2.2.2.2.2.2 "https://media.licdn.com/img.jpg" 250 400 (by decide)⟩

/-! ## C7: a single data-sources video collected once -/

/-- Snapshot whose one video element carries the data-sources attribute; the
wrapper pass also matches the same element (it bears the attribute). -/
def c7snapA : PageSnapshot :=
  { sel1 := none, sel2 := none, sel3 := none, sel4 := none
    fallbackMain := none, fallbackAny := none, articleImgs := []
    videoElems := [{ dataSources := some (DataSources.parsed ["https://dms.licdn.com/v1"])
                     sourceTags := [] }]
    wrapperElems := [{ dataSources := some (DataSources.parsed ["https://dms.licdn.com/v1"]) }] }

/-- The same snapshot when the wrapper query result is taken as empty. -/
def c7snapB : PageSnapshot :=
  { sel1 := none, sel2 := none, sel3 := none, sel4 := none
    fallbackMain := none, fallbackAny := none, articleImgs := []
    videoElems := [{ dataSources := some (DataSources.parsed ["https://dms.licdn.com/v1"])
                     sourceTags := [] }]
    wrapperElems := [] }

/-- C7: with exactly one video element whose data-sources parse to the
single URL and no other video markup, the videos sequence is exactly that
URL once — whether or not the wrapper pass also sees the element. -/
theorem c7_single_video_once :
    (extract c7snapA).videos = ["https://dms.licdn.com/v1"] ∧
    (extract c7snapB).videos = ["https://dms.licdn.com/v1"] := by
  decide

/-! ## C8: malformed data-sources contribute nothing -/

theorem videoElemOut_parsed_empty (entries tags : List String) (hall : ∀ s ∈ entries, s = "") :
    videoElemOut { dataSources := some (DataSources.parsed entries), sourceTags := tags } =
    videoElemOut { dataSources := none, sourceTags := tags } := by
  show List.filter (· != "") entries ++ tags = [] ++ tags
  have hfil : List.filter (· != "") entries = [] := by
    rw [List.filter_eq_nil_iff]
    intro a ha
    rw [hall a ha]
    simp
  rw [hfil]

theorem wrapperOut_parsed_empty (entries : List String) (hall : ∀ s ∈ entries, s = "") :
    wrapperOut { dataSources := some (DataSources.parsed entries) } =
    wrapperOut { dataSources := none } := by
  show List.filter (· != "") entries = []
  rw [List.filter_eq_nil_iff]
  intro a ha
  rw [hall a ha]
  simp

/-- C8: an element whose data-sources attribute fails to parse, or parses to
entries all lacking a truthy src, contributes exactly what the element would
with no attribute at all — in either collection pass, with any surrounding
elements — and the collector remains a total function (no error escapes). -/
theorem c8_malformed_swallowed :
    (∀ (pre suf : List VideoElem) (tags : List String) (nodes : List WrapperElem),
      collectVideos (pre ++ { dataSources := some DataSources.malformed, sourceTags := tags } :: suf)
        nodes =
      collectVideos (pre ++ { dataSources := none, sourceTags := tags } :: suf) nodes) ∧
    (∀ (pre suf : List VideoElem) (tags entries : List String) (nodes : List WrapperElem),
      (∀ s ∈ entries, s = "") →
      collectVideos
        (pre ++ { dataSources := some (DataSources.parsed entries), sourceTags := tags } :: suf)
        nodes =
      collectVideos (pre ++ { dataSources := none, sourceTags := tags } :: suf) nodes) ∧
    (∀ (vids : List VideoElem) (pre suf : List WrapperElem),
      collectVideos vids (pre ++ { dataSources := some DataSources.malformed } :: suf) =
      collectVideos vids (pre ++ { dataSources := none } :: suf)) ∧
    (∀ (vids : List VideoElem) (pre suf : List WrapperElem) (entries : List String),
      (∀ s ∈ entries, s = "") →
      collectVideos vids (pre ++ { dataSources := some (DataSources.parsed entries) } :: suf) =
      collectVideos vids (pre ++ { dataSources := none } :: suf)) := by
  refine ⟨?_, ?_, ?_, ?_⟩
  · intro pre suf tags nodes
    unfold collectVideos videoFromDataSources
    simp only [List.flatMap_append, List.flatMap_cons]
    rfl
  · intro pre suf tags entries nodes hall
    unfold collectVideos videoFromDataSources
    simp only [List.flatMap_append, List.flatMap_cons]
    rw [videoElemOut_parsed_empty entries tags hall]
  · intro vids pre suf
    unfold collectVideos videoFromWrapper
    simp only [List.flatMap_append, List.flatMap_cons]
    rfl
  · intro vids pre suf entries hall
    unfold collectVideos videoFromWrapper
    simp only [List.flatMap_append, List.flatMap_cons]
    rw [wrapperOut_parsed_empty entries hall]

theorem c8_malformed_swallowed_witness :
    collectVideos [{ dataSources := some (DataSources.parsed [""])
                     sourceTags := ["https://dms.licdn.com/v2"] }] [] =
      collectVideos [{ dataSources := none, sourceTags := ["https://dms.licdn.com/v2"] }] [] ∧
    collectVideos [] [{ dataSources := some DataSources.malformed }] =
      collectVideos [] [{ dataSources := none }] :=
  ⟨c8_malformed_swallowed.2.1 [] [] ["https://dms.licdn.com/v2"] [""] [] (by simp),
   c8_malformed_swallowed.2.2.1 [] [] []⟩

/-! ## C9: the batch endpoint -/

theorem scrapeOne_url (p : String → ScrapeOutcome) (u : String) : (scrapeOne p u).url = u := by
  unfold scrapeOne
  by_cases hv : (!containsStr u "linkedin.com/posts/") = true
  · rw [if_pos hv]
  · rw [if_neg hv]
    cases hp : p u with
    | ok r => rfl
    | err m => rfl

theorem scrapeOne_ok (p : String → ScrapeOutcome) (u : String) (r : ExtractionResult)
    (hv : containsStr u "linkedin.com/posts/" = true) (hp : p u = ScrapeOutcome.ok r) :
    scrapeOne p u = { url := u, success := true, data := some r, error := none } := by
  simp [scrapeOne, hv, hp]

theorem scrapeOne_err (p : String → ScrapeOutcome) (u m : String)
    (hv : containsStr u "linkedin.com/posts/" = true) (hp : p u = ScrapeOutcome.err m) :
    scrapeOne p u = { url := u, success := false, data := none, error := some m } := by
  simp [scrapeOne, hv, hp]

/-- C9: for at most 10 URLs the endpoint answers with one entry per URL, the
entry at each index carries that index's URL, an entry depends only on its
own URL's outcome, and in a 3-URL batch whose second target throws the
result is exactly three entries with the first and third successful and the
second failed. -/
theorem c9_batch_isolation :
    (∀ (p : String → ScrapeOutcome) (urls : List String), urls.length ≤ 10 →
      batchEndpoint p urls = Except.ok (processBatch p urls)) ∧
    (∀ (p : String → ScrapeOutcome) (urls : List String),
      (processBatch p urls).length = urls.length) ∧
    (∀ (p : String → ScrapeOutcome) (urls : List String) (i : Nat),
      (processBatch p urls)[i]? = (urls[i]?).map (scrapeOne p)) ∧
    (∀ (p : String → ScrapeOutcome) (urls : List String) (i : Nat) (u : String),
      urls[i]? = some u → ((processBatch p urls)[i]?).map (fun e => e.url) = some u) ∧
    (∀ (p q : String → ScrapeOutcome) (urls : List String) (i : Nat) (u : String),
      urls[i]? = some u → p u = q u →
      (processBatch p urls)[i]? = (processBatch q urls)[i]?) ∧
    (∀ (p : String → ScrapeOutcome) (u1 u2 u3 : String) (r1 r3 : ExtractionResult) (m : String),
      containsStr u1 "linkedin.com/posts/" = true →
      containsStr u2 "linkedin.com/posts/" = true →
      containsStr u3 "linkedin.com/posts/" = true →
      p u1 = ScrapeOutcome.ok r1 → p u2 = ScrapeOutcome.err m → p u3 = ScrapeOutcome.ok r3 →
      processBatch p [u1, u2, u3] =
        [{ url := u1, success := true, data := some r1, error := none },
         { url := u2, success := false, data := none, error := some m },
         { url := u3, success := true, data := some r3, error := none }]) := by
  refine ⟨?_, ?_, ?_, ?_, ?_, ?_⟩
  · intro p urls h
    unfold batchEndpoint
    rw [if_neg (by omega)]
  · intro p urls
    unfold processBatch
    rw [List.length_map]
  · intro p urls i
    unfold processBatch
    rw [List.getElem?_map]
  · intro p urls i u hu
    unfold processBatch
    rw [List.getElem?_map, hu]
    simp [scrapeOne_url]
  · intro p q urls i u hu hpq
    unfold processBatch
    rw [List.getElem?_map, List.getElem?_map, hu]
    simp only [Option.map_some']
    congr 1
    unfold scrapeOne
    rw [hpq]
  · intro p u1 u2 u3 r1 r3 m hv1 hv2 hv3 hp1 hp2 hp3
    show [scrapeOne p u1, scrapeOne p u2, scrapeOne p u3] = _
    rw [scrapeOne_ok p u1 r1 hv1 hp1, scrapeOne_err p u2 m hv2 hp2, scrapeOne_ok p u3 r3 hv3 hp3]

/-- A concrete page provider that throws on the second URL only. -/
def pEx : String → ScrapeOutcome :=
  fun u =>
    if u == "https://www.linkedin.com/posts/b" then ScrapeOutcome.err "boom"
    else ScrapeOutcome.ok { text := none, images := [], videos := [] }

theorem c9_batch_isolation_witness :
    batchEndpoint pEx ["https://www.linkedin.com/posts/a", "https://www.linkedin.com/posts/b",
        "https://www.linkedin.com/posts/c"] =
      Except.ok (processBatch pEx ["https://www.linkedin.com/posts/a",
        "https://www.linkedin.com/posts/b", "https://www.linkedin.com/posts/c"]) ∧
    processBatch pEx ["https://www.linkedin.com/posts/a", "https://www.linkedin.com/posts/b",
        "https://www.linkedin.com/posts/c"] =
      [{ url := "https://www.linkedin.com/posts/a", success := true
         data := some { text := none, images := [], videos := [] }, error := none },
       { url := "https://www.linkedin.com/posts/b", success := false, data := none
         error := some "boom" },
       { url := "https://www.linkedin.com/posts/c", success := true
         data := some { text := none, images := [], videos := [] }, error := none }] :=
  ⟨c9_batch_isolation.1 pEx _ (by decide),
   c9_batch_isolation.2.2.2.2.2 pEx "https://www.linkedin.com/posts/a"
     "https://www.linkedin.com/posts/b" "https://www.linkedin.com/posts/c"
     { text := none, images := [], videos := [] } { text := none, images := [], videos := [] }
     "boom" (by decide) (by decide) (by decide) (by decide) (by decide) (by decide)⟩

end LiScraper
